import Mathlib

/-
  Shallow embedding of the google-docs-mcp server core, translated from the
  TypeScript source: the OAuth credential lifecycle (src/auth/oauth.ts), the
  identifier extraction and listing helpers (tools/docs.ts, tools/sheets.ts),
  and the JSON-RPC dispatcher plus tool registrations (index.ts).

  Modelling conventions:
  - JavaScript strings that may be undefined become Option String; the
    JavaScript truthiness test (undefined and the empty string are falsy)
    is the function truthy below, and the JavaScript a || b operator on
    such values is jsOr.
  - The token file on disk is TokenFile: absent, unreadable or unparsable
    content, or a parsed record.  JSON.stringify followed by JSON.parse on a
    flat token record is the identity, so a saved record is modelled as
    stored verbatim.
  - Remote calls (token refresh, document and drive fetches) are external
    collaborators; each embedded operation takes the outcome of its single
    remote call as an explicit argument.  A thrown exception is an
    Except.error and performs no state mutation, matching the source, which
    never mutates its own state after a failed await.
-/

namespace GDocsMcp

/-- JavaScript truthiness of a possibly-undefined string: undefined and the
empty string are falsy. -/
def truthy : Option String → Bool
  | none => false
  | some s => s ≠ ""

/-- The JavaScript a || b operator on possibly-undefined strings. -/
def jsOr (a b : Option String) : Option String :=
  if truthy a then a else b

/-- The JavaScript a || d operator where d is a plain default string. -/
def jsOrStr (a : Option String) (d : String) : String :=
  match jsOr a (some d) with
  | some s => s
  | none => d

/-- The JavaScript a || undefined idiom, which maps the empty string to
undefined. -/
def jsOrUndef (a : Option String) : Option String :=
  if truthy a then a else none

/-- StoredTokens from src/types/index.ts: every field optional. -/
structure StoredTokens where
  access_token : Option String
  refresh_token : Option String
  expiry_date : Option Int
  token_type : Option String
  scope : Option String
deriving DecidableEq, Repr

/-- The token file at credentialsPath: missing, unreadable or unparsable, or
holding the structured encoding of a token record. -/
inductive TokenFile where
  | absent : TokenFile
  | corrupt : TokenFile
  | stored : StoredTokens → TokenFile
deriving DecidableEq, Repr

/-- The mutable state of a GoogleOAuth session: the in-memory credentials of
the wrapped OAuth2Client (none until setCredentials is first called) and the
token file it reads and writes. -/
structure OAuthState where
  credentials : Option StoredTokens
  tokenFile : TokenFile
deriving DecidableEq, Repr

/-- GoogleOAuth.saveTokens: creates the credentials directory when absent and
fully overwrites the token file with the encoding of the given record,
regardless of what the file held before. -/
def saveTokens (st : OAuthState) (tokens : StoredTokens) : OAuthState :=
  { st with tokenFile := TokenFile.stored tokens }

/-- GoogleOAuth.loadTokens: false when the file is absent, unreadable or
unparsable, or when the parsed record has a falsy refresh token; otherwise
installs the parsed record into the in-memory credentials and returns true. -/
def loadTokens (st : OAuthState) : Bool × OAuthState :=
  match st.tokenFile with
  | TokenFile.absent => (false, st)
  | TokenFile.corrupt => (false, st)
  | TokenFile.stored tokens =>
    if truthy tokens.refresh_token then
      (true, { st with credentials := some tokens })
    else
      (false, st)

/-- GoogleOAuth.isAuthenticated: double negation of
credentials && credentials.refresh_token, a pure in-memory check. -/
def isAuthenticated (st : OAuthState) : Bool :=
  match st.credentials with
  | none => false
  | some c => truthy c.refresh_token

/-- GoogleOAuth.refreshAccessToken: performs one remote refresh call whose
outcome is the argument; on success installs the returned credentials and
persists them; on failure the AuthRefreshError propagates to the caller and
the session state is untouched. -/
def refreshAccessToken (st : OAuthState) (remote : Option StoredTokens) :
    Except Unit OAuthState :=
  match remote with
  | none => Except.error ()
  | some creds => Except.ok (saveTokens { st with credentials := some creds } creds)

/-- Running a refresh and observing the resulting session state together with
a success flag; a thrown error leaves the state as it was. -/
def runRefresh (st : OAuthState) (remote : Option StoredTokens) :
    OAuthState × Bool :=
  match refreshAccessToken st remote with
  | Except.ok st2 => (st2, true)
  | Except.error _ => (st, false)

/-- checkAuth from index.ts: loads tokens on the shared session and reports
whether a usable refresh token was found. -/
def checkAuth (store : TokenFile) : Bool :=
  (loadTokens { credentials := none, tokenFile := store }).fst

/-- One credential block of a client_secret.json file (the installed or web
object); fields may be missing at runtime even though the TypeScript type
declares them, so they are optional here. -/
structure RawClientCreds where
  client_id : Option String
  client_secret : Option String
  redirect_uris : List String
deriving DecidableEq, Repr

/-- GoogleClientSecret from src/types/index.ts: either legacy layout. -/
structure GoogleClientSecret where
  installed : Option RawClientCreds
  web : Option RawClientCreds
deriving DecidableEq, Repr

/-- One candidate path probed for a client secret file: the file may be
absent, present but failing JSON.parse, or parsed. -/
inductive SecretFile where
  | absent : SecretFile
  | unparsable : SecretFile
  | parsed : GoogleClientSecret → SecretFile
deriving DecidableEq, Repr

/-- The normalized shape loadClientSecret returns for a usable file; the id
and secret stay optional because the parsed JSON may lack them. -/
structure FileOAuthConfig where
  clientId : Option String
  clientSecret : Option String
  redirectUri : String
deriving DecidableEq, Repr

/-- The fixed localhost redirect fallback. -/
def defaultRedirectUri : String := "http://localhost:3000/oauth2callback"

/-- loadClientSecret from src/auth/oauth.ts: walk the candidate paths in
order; skip a missing file, swallow a parse failure, skip a parsed file with
neither an installed nor a web block; the first usable file wins and is
normalized, preferring the first listed redirect URI over the localhost
default. -/
def loadClientSecret : List SecretFile → Option FileOAuthConfig
  | [] => none
  | SecretFile.absent :: rest => loadClientSecret rest
  | SecretFile.unparsable :: rest => loadClientSecret rest
  | SecretFile.parsed secret :: rest =>
    match secret.installed <|> secret.web with
    | some creds =>
      some { clientId := creds.client_id
             clientSecret := creds.client_secret
             redirectUri := jsOrStr creds.redirect_uris.head? defaultRedirectUri }
    | none => loadClientSecret rest

/-- The optional explicit constructor override Partial OAuthConfig. -/
structure PartialOAuthConfig where
  clientId : Option String
  clientSecret : Option String
  redirectUri : Option String
deriving DecidableEq, Repr

/-- The two environment variables the constructor reads for credentials. -/
structure CredEnv where
  googleClientId : Option String
  googleClientSecret : Option String
deriving DecidableEq, Repr

/-- The resolved credential configuration held by the session. -/
structure OAuthConfig where
  clientId : String
  clientSecret : String
  redirectUri : String
deriving DecidableEq, Repr

/-- The configuration error message thrown by the constructor. -/
def configErrorMsg : String :=
  "Google credentials not found. Please either:\n" ++
    "  1. Place client_secret.json in the project root, or\n" ++
    "  2. Set GOOGLE_CLIENT_ID and GOOGLE_CLIENT_SECRET environment variables"

/-- Per-field resolution: explicit override, then the selected secret file
value, then the environment variable, JavaScript || at each step. -/
def resolveField (explicit fileVal envVal : Option String) : Option String :=
  jsOr explicit (jsOr fileVal envVal)

/-- The GoogleOAuth constructor credential resolution: probe the candidate
secret files once, resolve clientId and clientSecret per field by priority
explicit > file > environment, default the redirect URI, and throw the
configuration error exactly when the resolved id or secret is still falsy. -/
def resolveConfig (config : Option PartialOAuthConfig) (files : List SecretFile)
    (env : CredEnv) : Except String OAuthConfig :=
  let fileConfig := loadClientSecret files
  let clientId := resolveField (config.bind PartialOAuthConfig.clientId)
    (fileConfig.bind FileOAuthConfig.clientId) env.googleClientId
  let clientSecret := resolveField (config.bind PartialOAuthConfig.clientSecret)
    (fileConfig.bind FileOAuthConfig.clientSecret) env.googleClientSecret
  let redirectUri := jsOrStr (jsOr (config.bind PartialOAuthConfig.redirectUri)
    (fileConfig.map FileOAuthConfig.redirectUri)) defaultRedirectUri
  if truthy clientId && truthy clientSecret then
    Except.ok { clientId := clientId.getD ""
                clientSecret := clientSecret.getD ""
                redirectUri := redirectUri }
  else
    Except.error configErrorMsg

/-- A character of the identifier class in the extraction patterns,
the regex class of letters, digits, underscore and hyphen. -/
def isIdChar (c : Char) : Bool :=
  (('a' ≤ c && c ≤ 'z') || ('A' ≤ c && c ≤ 'Z') ||
    ('0' ≤ c && c ≤ '9') || c = '_' || c = '-')

/-- Strip a literal pattern from the front of a character list. -/
def dropPat : List Char → List Char → Option (List Char)
  | [], s => some s
  | _ :: _, [] => none
  | p :: ps, c :: cs => if p = c then dropPat ps cs else none

/-- Leftmost match of the regex pattern LIT([identifier class]+): the first
position where the literal occurs followed by at least one identifier
character, returning the greedy capture. -/
def findIdAfter (pat : List Char) : List Char → Option (List Char)
  | [] => none
  | c :: cs =>
    match dropPat pat (c :: cs) with
    | some rest =>
      let run := rest.takeWhile isIdChar
      if run.isEmpty then findIdAfter pat cs else some run
    | none => findIdAfter pat cs

/-- String.includes: whether the pattern occurs as a contiguous substring. -/
def hasSub (pat : List Char) : List Char → Bool
  | [] => pat.isEmpty
  | c :: cs => (dropPat pat (c :: cs)).isSome || hasSub pat cs

/-- extractDocumentId from src/tools/docs.ts: when the input mentions
docs.google.com, take the first match of the document-path pattern;
otherwise, and when the pattern does not match, return the input. -/
def extractDocumentId (idOrUrl : String) : String :=
  if hasSub "docs.google.com".data idOrUrl.data then
    match findIdAfter "/document/d/".data idOrUrl.data with
    | some run => String.mk run
    | none => idOrUrl
  else idOrUrl

/-- extractSpreadsheetId from src/tools/sheets.ts: same shape with the
spreadsheet URL marker and path pattern. -/
def extractSpreadsheetId (idOrUrl : String) : String :=
  if hasSub "docs.google.com/spreadsheets".data idOrUrl.data then
    match findIdAfter "/spreadsheets/d/".data idOrUrl.data with
    | some run => String.mk run
    | none => idOrUrl
  else idOrUrl

/-- A raw file record returned by the drive listing call. -/
structure DriveFile where
  id : Option String
  name : Option String
  mimeType : Option String
  modifiedTime : Option String
  webViewLink : Option String
deriving DecidableEq, Repr

/-- DocumentInfo from src/types/index.ts. -/
structure DocumentInfo where
  id : String
  name : String
  mimeType : String
  modifiedTime : Option String
  webViewLink : Option String
deriving DecidableEq, Repr

/-- Field projection applied to every listed drive file. -/
def toDocumentInfo (f : DriveFile) : DocumentInfo :=
  { id := jsOrStr f.id ""
    name := jsOrStr f.name "Untitled"
    mimeType := jsOrStr f.mimeType ""
    modifiedTime := jsOrUndef f.modifiedTime
    webViewLink := jsOrUndef f.webViewLink }

/-- Escaping applied to the free-text query: each single quote becomes a
backslash-quote pair. -/
def escapeQueryQuotes (q : String) : String := q.replace "\x27" "\\\x27"

/-- The drive search expression built by the listing functions: mime filter
and trash exclusion, plus a full-text clause when a truthy query is given. -/
def buildDriveQuery (mime : String) (query : Option String) : String :=
  let base := "mimeType=\x27" ++ mime ++ "\x27 and trashed=false"
  if truthy query then
    base ++ " and fullText contains \x27" ++ escapeQueryQuotes (query.getD "") ++ "\x27"
  else base

/-- Mime type of Google Docs files. -/
def docMime : String := "application/vnd.google-apps.document"

/-- Mime type of Google Sheets files. -/
def sheetMime : String := "application/vnd.google-apps.spreadsheet"

/-- The fixed message thrown by ensureAuthenticated and returned by every
unauthenticated tool call. -/
def notAuthMsg : String :=
  "Not authenticated. Please run \"bun run auth\" to authenticate with Google first."

/-- listDocuments from src/tools/docs.ts: requires authentication, issues one
drive listing call with the built query and the limit as page size, and
projects the returned files.  The drive collaborator is the function
argument from query and page size to the returned file list. -/
def listDocuments (store : TokenFile) (drive : String → Int → List DriveFile)
    (limit : Int) (query : Option String) : Except String (List DocumentInfo) :=
  if checkAuth store then
    Except.ok ((drive (buildDriveQuery docMime query) limit).map toDocumentInfo)
  else Except.error notAuthMsg

/-- searchDocuments from src/tools/docs.ts: delegates to listDocuments with
the arguments swapped. -/
def searchDocuments (store : TokenFile) (drive : String → Int → List DriveFile)
    (query : String) (limit : Int) : Except String (List DocumentInfo) :=
  listDocuments store drive limit (some query)

/-- listSpreadsheets from src/tools/sheets.ts: as listDocuments with the
spreadsheet mime type. -/
def listSpreadsheets (store : TokenFile) (drive : String → Int → List DriveFile)
    (limit : Int) (query : Option String) : Except String (List DocumentInfo) :=
  if checkAuth store then
    Except.ok ((drive (buildDriveQuery sheetMime query) limit).map toDocumentInfo)
  else Except.error notAuthMsg

/-- One content item of a tool result payload. -/
structure ContentItem where
  type : String
  text : String
deriving DecidableEq, Repr

/-- A tool result payload: content items plus the error flag (absent in the
source on success, modelled as false). -/
structure ToolResult where
  content : List ContentItem
  isError : Bool
deriving DecidableEq, Repr

/-- A successful one-text-block payload. -/
def mkText (s : String) : ToolResult :=
  { content := [{ type := "text", text := s }], isError := false }

/-- An error-flagged one-text-block payload. -/
def mkErrText (s : String) : ToolResult :=
  { content := [{ type := "text", text := s }], isError := true }

/-- DocumentContent from src/types/index.ts. -/
structure DocumentContent where
  id : String
  title : String
  body : String
deriving DecidableEq, Repr

/-- SheetInfo from src/types/index.ts. -/
structure SheetInfo where
  sheetId : Int
  title : String
  index : Int
  rowCount : Option Int
  columnCount : Option Int
deriving DecidableEq, Repr

/-- SpreadsheetInfo from src/types/index.ts. -/
structure SpreadsheetInfo where
  id : String
  name : String
  sheets : List SheetInfo
  webViewLink : Option String
deriving DecidableEq, Repr

/-- SheetData from src/types/index.ts. -/
structure SheetData where
  spreadsheetId : String
  range : String
  values : List (List String)
deriving DecidableEq, Repr

/-- The JavaScript n || d idiom on an optional number rendered into text:
zero and undefined both fall back to the default. -/
def jsOrNumStr (a : Option Int) (d : String) : String :=
  match a with
  | some n => if n ≠ 0 then toString n else d
  | none => d

/-- Rendering of the get_document result, identical in both transports. -/
def renderGetDocument : Except String DocumentContent → ToolResult
  | Except.ok doc => mkText ("# " ++ doc.title ++ "\n\n" ++ doc.body)
  | Except.error m => mkErrText ("Error: " ++ m)

/-- One bullet of a file listing. -/
def formatFileEntry (d : DocumentInfo) : String :=
  "- **" ++ d.name ++ "**\n  ID: " ++ d.id ++ "\n  Modified: " ++
    jsOrStr d.modifiedTime "Unknown" ++ "\n  URL: " ++ jsOrStr d.webViewLink "N/A"

/-- Rendering of the list_documents result, identical in both transports. -/
def renderListDocuments : Except String (List DocumentInfo) → ToolResult
  | Except.ok docs =>
    if docs.length = 0 then mkText "No documents found."
    else mkText ("Found " ++ toString docs.length ++ " document(s):\n\n" ++
      String.intercalate "\n\n" (docs.map formatFileEntry))
  | Except.error m => mkErrText ("Error: " ++ m)

/-- Rendering of the list_spreadsheets result, identical in both
transports. -/
def renderListSpreadsheets : Except String (List DocumentInfo) → ToolResult
  | Except.ok sheets =>
    if sheets.length = 0 then mkText "No spreadsheets found."
    else mkText ("Found " ++ toString sheets.length ++ " spreadsheet(s):\n\n" ++
      String.intercalate "\n\n" (sheets.map formatFileEntry))
  | Except.error m => mkErrText ("Error: " ++ m)

/-- One line of the sheet inventory of a spreadsheet. -/
def formatSheetLine (s : SheetInfo) : String :=
  "  - " ++ s.title ++ " (" ++ jsOrNumStr s.rowCount "?" ++ " rows x " ++
    jsOrNumStr s.columnCount "?" ++ " cols)"

/-- Rendering of the get_spreadsheet result, identical in both transports. -/
def renderGetSpreadsheet : Except String SpreadsheetInfo → ToolResult
  | Except.ok ss => mkText ("# " ++ ss.name ++ "\n\nID: " ++ ss.id ++ "\nURL: " ++
      jsOrStr ss.webViewLink "N/A" ++ "\n\n## Sheets:\n" ++
      String.intercalate "\n" (ss.sheets.map formatSheetLine))
  | Except.error m => mkErrText ("Error: " ++ m)

/-- Rendering of the get_sheet_data result, identical in both transports. -/
def renderGetSheetData : Except String SheetData → ToolResult
  | Except.ok data =>
    if data.values.length = 0 then mkText "No data found in the specified range."
    else mkText ("Data from " ++ data.range ++ ":\n\n" ++
      String.intercalate "\n" (data.values.map (String.intercalate "\t")))
  | Except.error m => mkErrText ("Error: " ++ m)

instance {ε α : Type} [DecidableEq ε] [DecidableEq α] : DecidableEq (Except ε α) :=
  fun a b =>
  match a, b with
  | Except.error e, Except.error f =>
    if h : e = f then isTrue (by subst h; rfl)
    else isFalse (fun hh => by cases hh; exact h rfl)
  | Except.error _, Except.ok _ => isFalse (fun hh => by cases hh)
  | Except.ok _, Except.error _ => isFalse (fun hh => by cases hh)
  | Except.ok x, Except.ok y =>
    if h : x = y then isTrue (by subst h; rfl)
    else isFalse (fun hh => by cases hh; exact h rfl)

/-- The external environment of one dispatched request: the token store and
the outcome each capability call would produce if invoked (an Except.error
is a thrown failure, caught and rendered by the handlers). -/
structure World where
  store : TokenFile
  docFetch : Except String DocumentContent
  docList : Except String (List DocumentInfo)
  sheetMeta : Except String SpreadsheetInfo
  sheetValues : Except String SheetData
  sheetList : Except String (List DocumentInfo)
deriving DecidableEq, Repr

/-- The per-tool closures registered in createServer, used by the stdio
binding: each closure re-checks authentication itself and then renders the
capability outcome; names outside the five registrations are not handled by
this server code. -/
def stdioToolCall (w : World) (name : String) : Option ToolResult :=
  match name with
  | "get_document" =>
    some (if checkAuth w.store then renderGetDocument w.docFetch else mkErrText notAuthMsg)
  | "list_documents" =>
    some (if checkAuth w.store then renderListDocuments w.docList else mkErrText notAuthMsg)
  | "get_spreadsheet" =>
    some (if checkAuth w.store then renderGetSpreadsheet w.sheetMeta else mkErrText notAuthMsg)
  | "get_sheet_data" =>
    some (if checkAuth w.store then renderGetSheetData w.sheetValues else mkErrText notAuthMsg)
  | "list_spreadsheets" =>
    some (if checkAuth w.store then renderListSpreadsheets w.sheetList else mkErrText notAuthMsg)
  | _ => none

/-- A JSON-RPC request id: number, string, or null. -/
inductive JsonId where
  | num : Int → JsonId
  | str : String → JsonId
  | null : JsonId
deriving DecidableEq, Repr

/-- The arguments object of a tools/call request; every field may be
absent. -/
structure ToolArgs where
  documentId : Option String
  spreadsheetId : Option String
  range : Option String
  limit : Option Int
  query : Option String
deriving DecidableEq, Repr

/-- An incoming JSON-RPC envelope as destructured by handleJsonRpc: version
tag, method, the tool name and arguments found under params for tools/call,
and the request id. -/
structure RpcRequest where
  jsonrpc : String
  method : String
  name : String
  args : ToolArgs
  id : JsonId
deriving DecidableEq, Repr

/-- A JSON-RPC error object. -/
structure RpcErrorObj where
  code : Int
  message : String
deriving DecidableEq, Repr

/-- A parameter entry of an advertised tool input schema: property name,
JSON type, membership in the required list, and description text. -/
structure ParamDescriptor where
  name : String
  type : String
  required : Bool
  description : String
deriving DecidableEq, Repr

/-- An advertised tool descriptor. -/
structure ToolDescriptor where
  name : String
  description : String
  params : List ParamDescriptor
deriving DecidableEq, Repr

/-- The result member of a JSON-RPC response. -/
inductive RpcResult where
  | initData : String → String → String → RpcResult
  | toolList : List ToolDescriptor → RpcResult
  | toolResult : ToolResult → RpcResult
deriving DecidableEq, Repr

/-- An outgoing JSON-RPC envelope; exactly one of result and error is
populated by the dispatcher. -/
structure RpcResponse where
  jsonrpc : String
  result : Option RpcResult
  error : Option RpcErrorObj
  id : JsonId
deriving DecidableEq, Repr

/-- The catalog hard-coded in the tools/list branch of handleJsonRpc,
transcribed descriptor by descriptor. -/
def httpToolCatalog : List ToolDescriptor :=
  [ { name := "get_document"
      description := "Get the full content of a Google Doc by its ID or URL"
      params := [ { name := "documentId", type := "string", required := true,
                    description := "The document ID or full Google Docs URL" } ] },
    { name := "list_documents"
      description := "List Google Docs accessible to the user, optionally filtered by search query"
      params := [ { name := "limit", type := "number", required := false,
                    description := "Maximum number of documents to return (default: 10)" },
                  { name := "query", type := "string", required := false,
                    description := "Optional search query to filter documents" } ] },
    { name := "get_spreadsheet"
      description := "Get metadata about a Google Spreadsheet including its sheets"
      params := [ { name := "spreadsheetId", type := "string", required := true,
                    description := "The spreadsheet ID or full Google Sheets URL" } ] },
    { name := "get_sheet_data"
      description := "Read data from a specific range in a Google Spreadsheet"
      params := [ { name := "spreadsheetId", type := "string", required := true,
                    description := "The spreadsheet ID or full Google Sheets URL" },
                  { name := "range", type := "string", required := true,
                    description := "The A1 notation range to read (e.g., \x27Sheet1!A1:D10\x27)" } ] },
    { name := "list_spreadsheets"
      description := "List Google Spreadsheets accessible to the user, optionally filtered by search query"
      params := [ { name := "limit", type := "number", required := false,
                    description := "Maximum number of spreadsheets to return (default: 10)" },
                  { name := "query", type := "string", required := false,
                    description := "Optional search query to filter spreadsheets" } ] } ]

/-- The catalog registered in createServer and advertised over the stdio
binding: tool names, tool descriptions, and the parameter structure and
description texts of the zod schemas, in registration order. -/
def stdioToolCatalog : List ToolDescriptor :=
  [ { name := "get_document"
      description := "Get the full content of a Google Doc by its ID or URL"
      params := [ { name := "documentId", type := "string", required := true,
                    description := "The document ID or full Google Docs URL" } ] },
    { name := "list_documents"
      description := "List Google Docs accessible to the user, optionally filtered by search query"
      params := [ { name := "limit", type := "number", required := false,
                    description := "Maximum number of documents to return (default: 10)" },
                  { name := "query", type := "string", required := false,
                    description := "Optional search query to filter documents" } ] },
    { name := "get_spreadsheet"
      description := "Get metadata about a Google Spreadsheet including its sheets"
      params := [ { name := "spreadsheetId", type := "string", required := true,
                    description := "The spreadsheet ID or full Google Sheets URL" } ] },
    { name := "get_sheet_data"
      description := "Read data from a specific range in a Google Spreadsheet"
      params := [ { name := "spreadsheetId", type := "string", required := true,
                    description := "The spreadsheet ID or full Google Sheets URL" },
                  { name := "range", type := "string", required := true,
                    description := "The A1 notation range to read (e.g., \x27Sheet1!A1:D10\x27 or \x27A1:D10\x27)" } ] },
    { name := "list_spreadsheets"
      description := "List Google Spreadsheets accessible to the user, optionally filtered by search query"
      params := [ { name := "limit", type := "number", required := false,
                    description := "Maximum number of spreadsheets to return (default: 10)" },
                  { name := "query", type := "string", required := false,
                    description := "Optional search query to filter spreadsheets" } ] } ]

/-- Erase the human-readable parameter descriptions of a catalog, keeping
names, tool descriptions, parameter names, types and required flags. -/
def stripParamDescriptions (c : List ToolDescriptor) : List ToolDescriptor :=
  c.map fun t =>
    { t with params := t.params.map fun p => { p with description := "" } }

/-- A success envelope wrapping a tool result payload. -/
def okResult (r : ToolResult) (id : JsonId) : RpcResponse :=
  { jsonrpc := "2.0", result := some (RpcResult.toolResult r), error := none, id := id }

/-- handleJsonRpc from index.ts, the HTTP dispatcher: version gate, then
initialize, tools/list, tools/call with its auth gate before the tool-name
switch, unknown-tool and unknown-method errors.  Capability outcomes come
from the world; a thrown capability failure is already rendered into an
error-flagged payload by the render functions, matching the try/catch
around the switch. -/
def handleJsonRpc (w : World) (req : RpcRequest) : RpcResponse :=
  if req.jsonrpc ≠ "2.0" then
    { jsonrpc := "2.0", result := none,
      error := some { code := -32600, message := "Invalid JSON-RPC version" },
      id := req.id }
  else if req.method = "initialize" then
    { jsonrpc := "2.0",
      result := some (RpcResult.initData "2024-11-05" "google-docs-mcp" "1.0.0"),
      error := none, id := req.id }
  else if req.method = "tools/list" then
    { jsonrpc := "2.0", result := some (RpcResult.toolList httpToolCatalog),
      error := none, id := req.id }
  else if req.method = "tools/call" then
    if checkAuth w.store then
      match req.name with
      | "get_document" => okResult (renderGetDocument w.docFetch) req.id
      | "list_documents" => okResult (renderListDocuments w.docList) req.id
      | "get_spreadsheet" => okResult (renderGetSpreadsheet w.sheetMeta) req.id
      | "get_sheet_data" => okResult (renderGetSheetData w.sheetValues) req.id
      | "list_spreadsheets" => okResult (renderListSpreadsheets w.sheetList) req.id
      | other =>
        { jsonrpc := "2.0", result := none,
          error := some { code := -32601, message := "Unknown tool: " ++ other },
          id := req.id }
    else
      okResult (mkErrText notAuthMsg) req.id
  else
    { jsonrpc := "2.0", result := none,
      error := some { code := -32601, message := "Method not found: " ++ req.method },
      id := req.id }

/-- A concrete full token record with a non-empty refresh token. -/
def exTokens : StoredTokens :=
  { access_token := some "a", refresh_token := some "r", expiry_date := some 1,
    token_type := some "Bearer", scope := some "s" }

/-- A concrete token record holding an access token but no refresh token. -/
def exNoRefresh : StoredTokens :=
  { access_token := some "a", refresh_token := none, expiry_date := none,
    token_type := none, scope := none }

/-- A session whose in-memory credentials and token file both hold the full
record: the state reached after a successful load. -/
def exAuthState : OAuthState :=
  { credentials := some exTokens, tokenFile := TokenFile.stored exTokens }

/-- An arguments object with every field absent. -/
def exArgs : ToolArgs :=
  { documentId := none, spreadsheetId := none, range := none,
    limit := none, query := none }

/-- A world whose token store is missing and whose capability outcomes are
all empty or failing. -/
def exWorldUnauth : World :=
  { store := TokenFile.absent
    docFetch := Except.error "x"
    docList := Except.ok []
    sheetMeta := Except.error "x"
    sheetValues := Except.ok { spreadsheetId := "X", range := "A1:B2", values := [] }
    sheetList := Except.ok [] }

/-- The same world with a usable stored refresh token. -/
def exWorldAuth : World :=
  { exWorldUnauth with store := TokenFile.stored exTokens }

/-- C1: every tools/call envelope handled while the stored tokens yield no
refresh token produces a success envelope (result present, error absent)
whose payload carries the error flag and the fixed text
"Not authenticated. Please run \x22bun run auth\x22 to authenticate with
Google first.", with the request id echoed, for every tool name and
argument object. -/
theorem call_unauthenticated_fixed_payload (w : World) (req : RpcRequest)
    (hv : req.jsonrpc = "2.0") (hm : req.method = "tools/call")
    (hauth : checkAuth w.store = false) :
    handleJsonRpc w req =
      { jsonrpc := "2.0"
        result := some (RpcResult.toolResult
          { content := [{ type := "text"
                          text := "Not authenticated. Please run \"bun run auth\" to authenticate with Google first." }]
            isError := true })
        error := none
        id := req.id } := by
  obtain ⟨j, m, n, a, i⟩ := req
  simp only at hv hm
  subst hv; subst hm
  simp [handleJsonRpc, hauth, okResult, mkErrText, notAuthMsg]

/-- Witness for C1 at a concrete unauthenticated world and envelope. -/
theorem call_unauthenticated_fixed_payload_witness :
    handleJsonRpc exWorldUnauth
      { jsonrpc := "2.0", method := "tools/call", name := "get_sheet_data",
        args := exArgs, id := JsonId.num 1 } =
      { jsonrpc := "2.0"
        result := some (RpcResult.toolResult
          { content := [{ type := "text"
                          text := "Not authenticated. Please run \"bun run auth\" to authenticate with Google first." }]
            isError := true })
        error := none
        id := JsonId.num 1 } :=
  call_unauthenticated_fixed_payload exWorldUnauth _ rfl rfl (by decide)

/-- C4: every envelope whose version tag differs from "2.0" yields the
transport-level invalid-request error with code -32600 and the id echoed;
the response is a constant independent of the world, so no tool handler and
no authentication check is ever consulted. -/
theorem wrong_version_protocol_error (w : World) (req : RpcRequest)
    (h : req.jsonrpc ≠ "2.0") :
    handleJsonRpc w req =
      { jsonrpc := "2.0", result := none,
        error := some { code := -32600, message := "Invalid JSON-RPC version" },
        id := req.id } := by
  simp [handleJsonRpc, h]

/-- Witness for C4 at a concrete envelope with version tag "1.0". -/
theorem wrong_version_protocol_error_witness :
    handleJsonRpc exWorldAuth
      { jsonrpc := "1.0", method := "tools/call", name := "get_document",
        args := exArgs, id := JsonId.str "k" } =
      { jsonrpc := "2.0", result := none,
        error := some { code := -32600, message := "Invalid JSON-RPC version" },
        id := JsonId.str "k" } :=
  wrong_version_protocol_error exWorldAuth _ (by decide)

/-- C9: searchDocuments is listDocuments with the arguments swapped, for
every token store, drive collaborator, query and limit. -/
theorem searchDocuments_eq_listDocuments (store : TokenFile)
    (drive : String → Int → List DriveFile) (q : String) (n : Int) :
    searchDocuments store drive q n = listDocuments store drive n (some q) := rfl

/-- Counterexample to C2: a session that loaded a full token record, whose
refresh then fails remotely; the refresh reports failure, yet
isAuthenticated still returns true afterwards, because the source never
clears the in-memory credentials on a failed refresh. -/
theorem refresh_failure_keeps_authenticated :
    (runRefresh exAuthState none).snd = false ∧
    isAuthenticated (runRefresh exAuthState none).fst = true := by decide

/-- C2 as amended: a failed refresh propagates the error to the caller after
its single remote call, leaves the session state unchanged, and therefore
leaves isAuthenticated at its previous value instead of marking the session
unauthenticated. -/
theorem refresh_failure_surfaced_state_unchanged (st : OAuthState) :
    refreshAccessToken st none = Except.error () ∧
    runRefresh st none = (st, false) ∧
    isAuthenticated (runRefresh st none).fst = isAuthenticated st := by
  simp [refreshAccessToken, runRefresh]

/-- Counterexample to C5: saving a token record that has an access token but
no refresh token and then loading yields false, and installs nothing into
the in-memory credentials, so no TokenSet field-equal to the saved record is
installed. -/
theorem save_load_no_refresh_not_installed :
    (loadTokens (saveTokens { credentials := none, tokenFile := TokenFile.absent } exNoRefresh)).fst = false ∧
    (loadTokens (saveTokens { credentials := none, tokenFile := TokenFile.absent } exNoRefresh)).snd.credentials ≠
      some exNoRefresh := by decide

/-- C5 as amended: saveTokens always overwrites the token file with the
encoding of the given record, whatever the file held before (absent,
corrupt, or other content); a following loadTokens installs a record
field-equal to the saved one and returns true exactly when the record holds
a truthy refresh token, and otherwise returns false and installs nothing. -/
theorem save_load_roundtrip (st : OAuthState) (t : StoredTokens) :
    (saveTokens st t).tokenFile = TokenFile.stored t ∧
    (truthy t.refresh_token = true →
      loadTokens (saveTokens st t) =
        (true, { credentials := some t, tokenFile := TokenFile.stored t })) ∧
    (truthy t.refresh_token = false →
      loadTokens (saveTokens st t) = (false, saveTokens st t)) := by
  refine ⟨rfl, ?_, ?_⟩ <;> intro h <;> simp [loadTokens, saveTokens, h]

/-- Witness for C5 as amended: a full record saved over a corrupt file loads
back and installs field-equal credentials. -/
theorem save_load_roundtrip_witness :
    loadTokens (saveTokens { credentials := none, tokenFile := TokenFile.corrupt } exTokens) =
      (true, { credentials := some exTokens, tokenFile := TokenFile.stored exTokens }) :=
  (save_load_roundtrip { credentials := none, tokenFile := TokenFile.corrupt } exTokens).2.1 (by decide)

/-- C6: isAuthenticated is true exactly when the in-memory credentials hold
a non-empty refresh token - false whenever the refresh token is missing or
empty, even with an access token present, false with no credentials
installed, and independent of the token file, hence a pure in-memory check
with no store or network access. -/
theorem isAuthenticated_iff_refresh_token (c : StoredTokens) (f g : TokenFile) :
    (isAuthenticated { credentials := some c, tokenFile := f } = true ↔
      ∃ s, c.refresh_token = some s ∧ s ≠ "") ∧
    isAuthenticated { credentials := none, tokenFile := f } = false ∧
    isAuthenticated { credentials := some c, tokenFile := f } =
      isAuthenticated { credentials := some c, tokenFile := g } := by
  refine ⟨?_, rfl, rfl⟩
  cases h : c.refresh_token with
  | none => simp [isAuthenticated, truthy, h]
  | some s => simp [isAuthenticated, truthy, h]

/-- Witness for C6 at a record with refresh token "r". -/
theorem isAuthenticated_iff_refresh_token_witness :
    isAuthenticated { credentials := some exTokens, tokenFile := TokenFile.absent } = true :=
  (isAuthenticated_iff_refresh_token exTokens TokenFile.absent TokenFile.absent).1.mpr
    ⟨"r", rfl, by decide⟩

/-- The empty option is falsy. -/
theorem truthy_none_eq : truthy none = false := rfl

/-- C3: per-field priority explicit > secret file > environment; a truthy
explicit override wins for both fields; an unparsable or absent first
candidate is swallowed and resolution continues unchanged; with no explicit
override a usable file supplies the fields; with no usable file truthy
environment variables supply them; and the constructor throws the
configuration error exactly when the three-source chain leaves clientId or
clientSecret falsy. -/
theorem resolveConfig_priority :
    (∀ (pc : PartialOAuthConfig) (files : List SecretFile) (env : CredEnv),
      truthy pc.clientId = true → truthy pc.clientSecret = true →
      resolveConfig (some pc) files env =
        Except.ok { clientId := pc.clientId.getD ""
                    clientSecret := pc.clientSecret.getD ""
                    redirectUri := jsOrStr (jsOr pc.redirectUri
                      ((loadClientSecret files).map FileOAuthConfig.redirectUri)) defaultRedirectUri }) ∧
    (∀ (config : Option PartialOAuthConfig) (rest : List SecretFile) (env : CredEnv),
      resolveConfig config (SecretFile.unparsable :: rest) env = resolveConfig config rest env ∧
      resolveConfig config (SecretFile.absent :: rest) env = resolveConfig config rest env) ∧
    (∀ (files : List SecretFile) (env : CredEnv) (fc : FileOAuthConfig),
      loadClientSecret files = some fc →
      truthy fc.clientId = true → truthy fc.clientSecret = true →
      resolveConfig none files env =
        Except.ok { clientId := fc.clientId.getD ""
                    clientSecret := fc.clientSecret.getD ""
                    redirectUri := jsOrStr (some fc.redirectUri) defaultRedirectUri }) ∧
    (∀ (files : List SecretFile) (env : CredEnv),
      loadClientSecret files = none →
      truthy env.googleClientId = true → truthy env.googleClientSecret = true →
      resolveConfig none files env =
        Except.ok { clientId := env.googleClientId.getD ""
                    clientSecret := env.googleClientSecret.getD ""
                    redirectUri := defaultRedirectUri }) ∧
    (∀ (config : Option PartialOAuthConfig) (files : List SecretFile) (env : CredEnv),
      resolveConfig config files env = Except.error configErrorMsg ↔
        (truthy (resolveField (config.bind PartialOAuthConfig.clientId)
            ((loadClientSecret files).bind FileOAuthConfig.clientId) env.googleClientId) = false ∨
         truthy (resolveField (config.bind PartialOAuthConfig.clientSecret)
            ((loadClientSecret files).bind FileOAuthConfig.clientSecret) env.googleClientSecret) = false)) := by
  refine ⟨?_, ?_, ?_, ?_, ?_⟩
  · intro pc files env h1 h2
    simp [resolveConfig, resolveField, jsOr, h1, h2]
  · intro config rest env
    exact ⟨rfl, rfl⟩
  · intro files env fc hfc h1 h2
    simp [resolveConfig, resolveField, hfc, jsOr, truthy_none_eq, h1, h2]
  · intro files env hfc h1 h2
    simp [resolveConfig, resolveField, jsOrStr, hfc, jsOr, truthy_none_eq, h1, h2]
  · intro config files env
    simp only [resolveConfig]
    cases hA : truthy (resolveField (config.bind PartialOAuthConfig.clientId)
        ((loadClientSecret files).bind FileOAuthConfig.clientId) env.googleClientId) <;>
      cases hB : truthy (resolveField (config.bind PartialOAuthConfig.clientSecret)
        ((loadClientSecret files).bind FileOAuthConfig.clientSecret) env.googleClientSecret) <;>
      simp [hA, hB]

/-- Witness for C3: a malformed first candidate file with valid environment
variables resolves through the environment. -/
theorem resolveConfig_priority_witness :
    resolveConfig none [SecretFile.unparsable]
      { googleClientId := some "eid", googleClientSecret := some "esec" } =
      Except.ok { clientId := "eid", clientSecret := "esec",
                  redirectUri := defaultRedirectUri } :=
  (resolveConfig_priority.2.2.2.1) [SecretFile.unparsable]
    { googleClientId := some "eid", googleClientSecret := some "esec" }
    rfl (by decide) (by decide)

/-- C7: the extraction functions map a full browser URL to the identifier
captured by the fixed path pattern, leave any input without the URL marker
(in particular a bare identifier) unchanged, and leave any input where the
path pattern finds no match unchanged. -/
theorem extract_id_spec :
    extractDocumentId "https://docs.google.com/document/d/ABC123/edit" = "ABC123" ∧
    extractSpreadsheetId "https://docs.google.com/spreadsheets/d/ABC123/edit" = "ABC123" ∧
    (∀ s : String, hasSub "docs.google.com".data s.data = false →
      extractDocumentId s = s) ∧
    (∀ s : String, findIdAfter "/document/d/".data s.data = none →
      extractDocumentId s = s) ∧
    (∀ s : String, hasSub "docs.google.com/spreadsheets".data s.data = false →
      extractSpreadsheetId s = s) ∧
    (∀ s : String, findIdAfter "/spreadsheets/d/".data s.data = none →
      extractSpreadsheetId s = s) := by
  refine ⟨by decide, by decide, ?_, ?_, ?_, ?_⟩
  · intro s h
    simp [extractDocumentId, h]
  · intro s h
    cases hc : hasSub "docs.google.com".data s.data <;>
      simp [extractDocumentId, hc, h]
  · intro s h
    simp [extractSpreadsheetId, h]
  · intro s h
    cases hc : hasSub "docs.google.com/spreadsheets".data s.data <;>
      simp [extractSpreadsheetId, hc, h]

/-- Witness for C7: a bare identifier passes through unchanged. -/
theorem extract_id_spec_witness :
    extractDocumentId "ABC123" = "ABC123" :=
  extract_id_spec.2.2.1 "ABC123" (by decide)

/-- Counterexample to C8: the catalog registered for the stdio binding and
the catalog hard-coded in the HTTP tools/list branch are not identical - the
range parameter description of get_sheet_data differs between them. -/
theorem stdio_http_catalogs_differ :
    stdioToolCatalog ≠ httpToolCatalog ∧
    ((stdioToolCatalog.getD 3 { name := "", description := "", params := [] }).params.getD 1
        { name := "", type := "", required := false, description := "" }).description ≠
      ((httpToolCatalog.getD 3 { name := "", description := "", params := [] }).params.getD 1
        { name := "", type := "", required := false, description := "" }).description := by
  refine ⟨by decide, by decide⟩

/-- C8 as amended: tools/list always returns the fixed five-descriptor
catalog with no auth gate - the response is the same for every world, and in
particular for authenticated and unauthenticated stores alike - and the two
bindings advertise catalogs agreeing in tool names, order, tool
descriptions, and parameter names, types and required flags, though not in
every parameter description text. -/
theorem tools_list_auth_independent (w w2 : World) (req : RpcRequest)
    (hv : req.jsonrpc = "2.0") (hm : req.method = "tools/list") :
    handleJsonRpc w req =
      { jsonrpc := "2.0", result := some (RpcResult.toolList httpToolCatalog),
        error := none, id := req.id } ∧
    handleJsonRpc w req = handleJsonRpc w2 req ∧
    stdioToolCatalog.map ToolDescriptor.name = httpToolCatalog.map ToolDescriptor.name ∧
    stdioToolCatalog.map ToolDescriptor.description =
      httpToolCatalog.map ToolDescriptor.description ∧
    stripParamDescriptions stdioToolCatalog = stripParamDescriptions httpToolCatalog := by
  obtain ⟨j, m, n, a, i⟩ := req
  simp only at hv hm
  subst hv; subst hm
  exact ⟨by simp [handleJsonRpc], by simp [handleJsonRpc], by decide, by decide, by decide⟩

/-- Witness for C8 as amended at an unauthenticated world. -/
theorem tools_list_auth_independent_witness :
    handleJsonRpc exWorldUnauth
      { jsonrpc := "2.0", method := "tools/list", name := "", args := exArgs,
        id := JsonId.num 7 } =
      { jsonrpc := "2.0", result := some (RpcResult.toolList httpToolCatalog),
        error := none, id := JsonId.num 7 } :=
  (tools_list_auth_independent exWorldUnauth exWorldAuth _ rfl rfl).1

/-- C10: with the auth gate passed, an empty range fetch renders the fixed
text about no data, and empty document and spreadsheet listings render their
fixed texts, on both the HTTP dispatcher and the stdio tool closures, always
as a success payload with the error flag false. -/
theorem empty_results_fixed_texts (w : World) (hauth : checkAuth w.store = true)
    (d : SheetData) (hd : w.sheetValues = Except.ok d) (hv : d.values = [])
    (hdl : w.docList = Except.ok []) (hsl : w.sheetList = Except.ok [])
    (args : ToolArgs) (id : JsonId) :
    handleJsonRpc w
        { jsonrpc := "2.0", method := "tools/call",
          name := "get_sheet_data", args := args, id := id } =
      { jsonrpc := "2.0"
        result := some (RpcResult.toolResult
          { content := [{ type := "text", text := "No data found in the specified range." }]
            isError := false })
        error := none, id := id } ∧
    stdioToolCall w "get_sheet_data" =
      some { content := [{ type := "text", text := "No data found in the specified range." }]
             isError := false } ∧
    handleJsonRpc w
        { jsonrpc := "2.0", method := "tools/call",
          name := "list_documents", args := args, id := id } =
      { jsonrpc := "2.0"
        result := some (RpcResult.toolResult
          { content := [{ type := "text", text := "No documents found." }]
            isError := false })
        error := none, id := id } ∧
    stdioToolCall w "list_documents" =
      some { content := [{ type := "text", text := "No documents found." }]
             isError := false } ∧
    handleJsonRpc w
        { jsonrpc := "2.0", method := "tools/call",
          name := "list_spreadsheets", args := args, id := id } =
      { jsonrpc := "2.0"
        result := some (RpcResult.toolResult
          { content := [{ type := "text", text := "No spreadsheets found." }]
            isError := false })
        error := none, id := id } ∧
    stdioToolCall w "list_spreadsheets" =
      some { content := [{ type := "text", text := "No spreadsheets found." }]
             isError := false } := by
  refine ⟨?_, ?_, ?_, ?_, ?_, ?_⟩ <;>
    simp [handleJsonRpc, stdioToolCall, hauth, hd, hv, hdl, hsl,
      renderGetSheetData, renderListDocuments, renderListSpreadsheets, okResult, mkText]

/-- Witness for C10 at a concrete authenticated world with empty outcomes. -/
theorem empty_results_fixed_texts_witness :
    stdioToolCall exWorldAuth "get_sheet_data" =
      some { content := [{ type := "text", text := "No data found in the specified range." }]
             isError := false } :=
  (empty_results_fixed_texts exWorldAuth (by decide)
    { spreadsheetId := "X", range := "A1:B2", values := [] }
    rfl rfl rfl rfl exArgs (JsonId.num 1)).2.1

end GDocsMcp
